import Mathlib

/-!
Shallow embedding of the mi-pago digital-wallet backend (TypeScript).

Numbers (JS `number`) are modelled as exact rationals `ℚ`; timestamps as
integer milliseconds `ℤ`; `Math.round` as `jsRound` (floor of x + 1/2,
which matches JS half-up rounding); fallible service methods return
`Except AppErr _`.  Stateful repository writes are modelled by explicit
state passing: a method that throws before any write returns `.error`
with the state untouched.
-/

namespace MiPago

/-- Error taxonomy from errors/AppError.ts (only the constructors the
embedded operations raise). -/
inductive AppErr where
  | validationErr (msg : String)
  | notFoundErr (msg : String)
  | unauthorizedErr (msg : String)
  | insufficientFundsErr (msg : String)
deriving Repr, DecidableEq

/-- JS Math.round: round half up, `Math.round x = ⌊x + 1/2⌋`, computed
as an integer division so that it evaluates by kernel reduction
(`jsRound_eq_floor` below identifies it with the floor). -/
def jsRound (x : ℚ) : ℤ := (2 * x.num + (x.den : ℤ)) / (2 * (x.den : ℤ))

/-- Credit product types (types/index.ts `CreditType`). -/
inductive CreditType where
  | quick
  | normal
deriving Repr, DecidableEq

/-- Credit lifecycle states (types/index.ts `CreditStatus`). -/
inductive CreditStatus where
  | preaprobado
  | aprobado
  | desembolsado
  | en_curso
  | pagado
  | en_mora
  | cancelado
deriving Repr, DecidableEq

/-- One entry of the generated installment plan
(types/index.ts `InstallmentPlan`); the due date is kept as a day offset
from issuance (the code computes `startDate + i * 30` days). -/
structure InstallmentPlan where
  nro_cuota : ℕ
  importe : ℚ
  fecha_vencimiento_dias : ℤ
deriving Repr, DecidableEq

/-- Result of CreditsService.calculateCredit. -/
structure CreditCalculation where
  monto_faltante : ℚ
  tasa_tea : ℚ
  tasa_cft : ℚ
  monto_intereses : ℤ
  gastos_administrativos : ℤ
  monto_total : ℤ
  plan_cuotas : List InstallmentPlan
deriving Repr, DecidableEq

/-- Result of CreditsService.simulateQuickCredit / simulateNormalCredit. -/
structure CreditSimulation where
  tipo_credito : CreditType
  monto_solicitado : ℚ
  plazo_dias : ℕ
  cuotas_totales : ℕ
  tasa_tea : ℚ
  tasa_cft : ℚ
  monto_total : ℤ
  costo_financiero : ℤ
  plan_cuotas : List InstallmentPlan
deriving Repr, DecidableEq

/-- CreditsService.quickCreditRates: fixed TEA table for quick credits,
keyed by term in days. -/
def quickCreditRates (termDays : ℕ) : Option ℚ :=
  if termDays = 30 then some 110
  else if termDays = 60 then some 115
  else if termDays = 90 then some 120
  else none

/-- CreditsService.normalCreditRates: fixed TEA table for normal credits,
keyed by term in months.  The source table has entries for 3, 6 and 12
months only — there is no entry for 9 months. -/
def normalCreditRates (termMonths : ℕ) : Option ℚ :=
  if termMonths = 3 then some 85
  else if termMonths = 6 then some 90
  else if termMonths = 12 then some 95
  else none

/-- Installment count from CreditsService.calculateCredit:
`Math.ceil(termDays / 30)` for quick, `Math.floor(termDays / 30)` for
normal credits. -/
def numInstallments (type : CreditType) (termDays : ℕ) : ℕ :=
  match type with
  | .quick => (termDays + 29) / 30
  | .normal => termDays / 30

/-- The installment list built by the loop in
CreditsService.calculateCredit: every installment carries
`installmentAmount` except the last, which carries
`totalAmount - installmentAmount * (n - 1)`. -/
def makePlan (totalAmount installmentAmount : ℚ) (n : ℕ) : List InstallmentPlan :=
  (List.range n).map fun j =>
    { nro_cuota := j + 1
      importe :=
        if j + 1 = n then totalAmount - installmentAmount * ((n : ℚ) - 1)
        else installmentAmount
      fecha_vencimiento_dias := ((j : ℤ) + 1) * 30 }

/-- CreditsService.calculateCredit (private helper): interest, admin fee,
rounded totals, and the installment plan. -/
def calculateCredit (principal tea cft : ℚ) (termDays : ℕ) (type : CreditType) :
    CreditCalculation :=
  let yearFraction : ℚ := (termDays : ℚ) / 365
  let interestRate : ℚ := tea / 100
  let interest : ℚ := principal * interestRate * yearFraction
  let adminCharges : ℚ := principal * (2 / 100)
  let totalAmount : ℚ := principal + interest + adminCharges
  let n : ℕ := numInstallments type termDays
  let installmentAmount : ℚ := totalAmount / (n : ℚ)
  { monto_faltante := principal
    tasa_tea := tea
    tasa_cft := cft
    monto_intereses := jsRound interest
    gastos_administrativos := jsRound adminCharges
    monto_total := jsRound totalAmount
    plan_cuotas := makePlan totalAmount installmentAmount n }

/-- CreditsService.simulateQuickCredit: rejects terms outside the quick
rate table, otherwise prices the credit. -/
def simulateQuickCredit (missingAmount : ℚ) (termDays : ℕ) :
    Except AppErr CreditSimulation :=
  match quickCreditRates termDays with
  | none => .error (.validationErr "Invalid term for quick credit. Allowed: 30, 60, 90 days")
  | some tea =>
    let cft : ℚ := (jsRound (tea * (115 / 100)) : ℚ)
    let calculation := calculateCredit missingAmount tea cft termDays .quick
    .ok
      { tipo_credito := .quick
        monto_solicitado := missingAmount
        plazo_dias := termDays
        cuotas_totales := calculation.plan_cuotas.length
        tasa_tea := tea
        tasa_cft := cft
        monto_total := calculation.monto_total
        costo_financiero := calculation.monto_intereses + calculation.gastos_administrativos
        plan_cuotas := calculation.plan_cuotas }

/-- CreditsService.simulateNormalCredit: rejects terms outside the normal
rate table (which lacks a 9-month entry even though the error message
names 9 as allowed), otherwise prices the credit over termMonths * 30
days. -/
def simulateNormalCredit (amount : ℚ) (termMonths : ℕ) :
    Except AppErr CreditSimulation :=
  match normalCreditRates termMonths with
  | none => .error (.validationErr "Invalid term for normal credit. Allowed: 3, 6, 9, 12 months")
  | some tea =>
    let cft : ℚ := (jsRound (tea * (115 / 100)) : ℚ)
    let termDays := termMonths * 30
    let calculation := calculateCredit amount tea cft termDays .normal
    .ok
      { tipo_credito := .normal
        monto_solicitado := amount
        plazo_dias := termDays
        cuotas_totales := termMonths
        tasa_tea := tea
        tasa_cft := cft
        monto_total := calculation.monto_total
        costo_financiero := calculation.monto_intereses + calculation.gastos_administrativos
        plan_cuotas := calculation.plan_cuotas }

/-- Sum of the installment amounts of a plan. -/
def planSum (plan : List InstallmentPlan) : ℚ :=
  (plan.map (fun p => p.importe)).sum

/-- KYC workflow states (types/index.ts `KYCStatus`, stored as strings in
the user_accounts.kyc_status column). -/
inductive KYCStatus where
  | pendiente
  | en_revision
  | aprobado
  | rechazado
deriving Repr, DecidableEq

/-- KYC document kinds accepted by uploadKYCDocument. -/
inductive DocKind where
  | dni
  | selfie
  | comprobante_domicilio
deriving Repr, DecidableEq

/-- A stored KYC document (types/index.ts `KYCDocument`), reduced to the
fields approveKYC reads. -/
structure KYCDocument where
  tipo_documento : DocKind
  estado_validacion : KYCStatus
deriving Repr, DecidableEq

/-- A user_accounts row (types/index.ts `UserAccount` plus the security
and KYC columns added by the migration). -/
structure UserAccount where
  usuario_id : String
  kyc_completo : Bool
  fecha_registro : ℤ
  saldo_disponible : ℚ
  historial_mora : Bool
  bloqueado : Bool
  intentos_fallidos : ℕ
  fecha_proximo_intento : Option ℤ
  password_hash : Option String
  kyc_status : Option KYCStatus
  limite_transferencia : Option ℚ
deriving Repr, DecidableEq

/-- Transfer settlement states (types/index.ts `TransferStatus`). -/
inductive TransferStatus where
  | pendiente
  | procesando
  | acreditada
  | fallida
deriving Repr, DecidableEq

/-- A transfer row, reduced to the fields the daily-limit and fraud
queries read. -/
structure Transfer where
  monto : ℚ
  estado : TransferStatus
deriving Repr, DecidableEq

/-- TransfersService.getDailyTransferTotal: sum of the amounts of the
settled (ACREDITADA) transfers among the origin account's transfers of
the current day. -/
def getDailyTransferTotal (todays : List Transfer) : ℚ :=
  ((todays.filter fun t => t.estado == TransferStatus.acreditada).map
    (fun t => t.monto)).sum

/-- TransfersService.getDailyTransferCount: number of settled transfers
among the origin account's transfers of the current day. -/
def getDailyTransferCount (todays : List Transfer) : ℕ :=
  (todays.filter fun t => t.estado == TransferStatus.acreditada).length

/-! Account balance operations (UserAccountsService).  Each one loads the
account, validates, and writes a new balance; the embedding takes the
loaded account and returns the stored account, with `.error` meaning the
method threw before writing anything. -/

/-- UserAccountsService.updateAccountBalance: sets the balance to the
given amount, rejecting negative amounts. -/
def updateAccountBalance (acct : UserAccount) (amount : ℚ) :
    Except AppErr UserAccount :=
  if amount < 0 then .error (.validationErr "Balance amount cannot be negative")
  else .ok { acct with saldo_disponible := amount }

/-- UserAccountsService.addFunds. -/
def addFunds (acct : UserAccount) (amount : ℚ) : Except AppErr UserAccount :=
  if amount ≤ 0 then .error (.validationErr "Amount to add must be greater than 0")
  else .ok { acct with saldo_disponible := acct.saldo_disponible + amount }

/-- UserAccountsService.removeFunds: rejects non-positive amounts and
amounts above the available balance before mutating. -/
def removeFunds (acct : UserAccount) (amount : ℚ) : Except AppErr UserAccount :=
  if amount ≤ 0 then .error (.validationErr "Amount to remove must be greater than 0")
  else if acct.saldo_disponible < amount then
    .error (.validationErr "Insufficient balance")
  else .ok { acct with saldo_disponible := acct.saldo_disponible - amount }

/-- A credit row (types/index.ts `Credit`), reduced to the fields the
disbursement path reads and writes. -/
structure Credit where
  id_credito : String
  usuario_id : String
  tipo_credito : CreditType
  monto_solicitado : ℚ
  monto_total : ℤ
  plazo_dias : ℕ
  tasa_tea : ℚ
  tasa_cft : ℚ
  estado : CreditStatus
  fecha_desembolso : Option ℤ
  cuotas : ℕ
deriving Repr, DecidableEq

/-- CreditsService.approveCreditAndDisburse: looks the credit up, checks
the balance, debits the principal and flips the credit to IN_PROGRESS.
Mirroring the source, there is no check of the credit's current status
before disbursing. -/
def approveCreditAndDisburse (now : ℤ) (credit : Option Credit)
    (acct : UserAccount) : Except AppErr (Credit × UserAccount) :=
  match credit with
  | none => .error (.validationErr "Credit not found")
  | some c =>
    if acct.saldo_disponible < c.monto_solicitado then
      .error (.insufficientFundsErr "Insufficient funds to disburse credit")
    else
      let acct' := { acct with
        saldo_disponible := acct.saldo_disponible - c.monto_solicitado }
      let c' := { c with estado := .en_curso, fecha_desembolso := some now }
      .ok (c', acct')

/-- Outcome of BankingAPI.transferFunds (the `BankingAPIResponse`
success flag plus the resulting sender balance or the failure reason). -/
inductive BankingOutcome where
  | ok (saldo_resultante : ℚ)
  | failed (razon_fallo : String)
deriving Repr, DecidableEq

/-- BankingAPI.transferFunds: checks the sender balance, then
removeFunds on the sender and addFunds on the recipient; a thrown error
is caught and reported as a failed response.  Note that if addFunds were
to throw after the debit, the debit is not rolled back (faithful to the
source, though unreachable because addFunds only rejects non-positive
amounts, which removeFunds already rejected). -/
def transferFunds (sender recipient : UserAccount) (amount : ℚ) :
    BankingOutcome × UserAccount × UserAccount :=
  if sender.saldo_disponible < amount then
    (.failed "Sender has insufficient balance", sender, recipient)
  else
    match removeFunds sender amount with
    | .error _ => (.failed "Transfer failed", sender, recipient)
    | .ok sender' =>
      match addFunds recipient amount with
      | .error _ => (.failed "Transfer failed", sender', recipient)
      | .ok recipient' => (.ok sender'.saldo_disponible, sender', recipient')

/-! Account security state machine (UserAccountsRepository and
UserAccountsService).  `now` is the current time in milliseconds. -/

/-- Milliseconds in one hour. -/
def oneHourMs : ℤ := 60 * 60 * 1000

/-- UserAccountsRepository.recordFailedLoginAttempt: increments the
failed-attempt counter; once it reaches 5 the account is blocked and the
next allowed attempt is one hour away. -/
def recordFailedLoginAttempt (now : ℤ) (acct : UserAccount) : UserAccount :=
  let newAttempts := acct.intentos_fallidos + 1
  if 5 ≤ newAttempts then
    { acct with
      intentos_fallidos := newAttempts
      bloqueado := true
      fecha_proximo_intento := some (now + oneHourMs) }
  else { acct with intentos_fallidos := newAttempts }

/-- UserAccountsRepository.resetFailedLoginAttempts: zeroes the counter
and clears the retry timestamp (it does not touch `bloqueado`). -/
def resetFailedLoginAttempts (acct : UserAccount) : UserAccount :=
  { acct with intentos_fallidos := 0, fecha_proximo_intento := none }

/-- UserAccountsRepository.unblockAccount. -/
def unblockAccount (acct : UserAccount) : UserAccount :=
  { acct with bloqueado := false, intentos_fallidos := 0, fecha_proximo_intento := none }

/-- UserAccountsRepository.isAccountBlocked: reports the block state and
lazily unblocks the account whenever the retry timestamp has passed. -/
def isAccountBlocked (now : ℤ) (acct : UserAccount) : Bool × UserAccount :=
  if !acct.bloqueado then (false, acct)
  else
    match acct.fecha_proximo_intento with
    | some t => if t ≤ now then (false, unblockAccount acct) else (acct.bloqueado, acct)
    | none => (acct.bloqueado, acct)

/-- Outcome of UserAccountsService.validateCredentials. -/
inductive LoginOutcome where
  | ok
  | locked
  | badCredentials
  | noPassword
deriving Repr, DecidableEq

/-- UserAccountsService.validateCredentials.  The pbkdf2 password
comparison is abstracted by the boolean `passwordMatches` (the value of
`verifyPassword(password, passwordHash)`); everything else follows the
source: locked accounts are rejected first, a mismatch records a failed
attempt, a match resets the counter. -/
def validateCredentials (now : ℤ) (passwordMatches : Bool) (acct : UserAccount) :
    LoginOutcome × UserAccount :=
  let checked := isAccountBlocked now acct
  if checked.1 then (.locked, checked.2)
  else
    match checked.2.password_hash with
    | none => (.noPassword, checked.2)
    | some _ =>
      if !passwordMatches then (.badCredentials, recordFailedLoginAttempt now checked.2)
      else (.ok, resetFailedLoginAttempts checked.2)

/-- A password_reset_tokens row (types/index.ts `PasswordResetToken`). -/
structure PasswordResetToken where
  token : String
  usuario_id : String
  fecha_vencimiento : ℤ
  utilizado : Bool
deriving Repr, DecidableEq

/-- The repository query behind validatePasswordResetToken: the stored
row with this token value and `utilizado = false`, if any. -/
def findUnusedToken (tokens : List PasswordResetToken) (t : String) :
    Option PasswordResetToken :=
  tokens.find? fun r => r.token == t && !r.utilizado

/-- UserAccountsRepository.validatePasswordResetToken: true when an
unused row exists for the token and its expiry is still in the future. -/
def validatePasswordResetToken (now : ℤ) (tokens : List PasswordResetToken)
    (t : String) : Bool :=
  match findUnusedToken tokens t with
  | none => false
  | some row => now < row.fecha_vencimiento

/-- Outcome of UserAccountsService.updatePasswordWithResetToken. -/
inductive ResetOutcome where
  | passwordTooShort
  | invalidToken
  | ok (usuario_id : String)
deriving Repr, DecidableEq

/-- UserAccountsService.updatePasswordWithResetToken: the source checks
the new password's length BEFORE the token's validity, then marks the
token used and stores the new hash. -/
def updatePasswordWithResetToken (now : ℤ) (tokens : List PasswordResetToken)
    (t : String) (newPassword : String) :
    ResetOutcome × List PasswordResetToken :=
  if newPassword.length < 8 then (.passwordTooShort, tokens)
  else if !validatePasswordResetToken now tokens t then (.invalidToken, tokens)
  else
    match findUnusedToken tokens t with
    | none => (.invalidToken, tokens)
    | some row =>
      (.ok row.usuario_id,
        tokens.map fun r => if r.token == t then { r with utilizado := true } else r)

/-! KYC workflow (UserAccountsService / UserAccountsRepository). -/

/-- UserAccountsRepository.updateKYCStatus: one update that, on
approval, also sets `kyc_completo` and the 50000 transfer limit; on
rejection it clears `kyc_completo`. -/
def updateKYCStatus (acct : UserAccount) (status : KYCStatus) : UserAccount :=
  match status with
  | .aprobado =>
    { acct with
      kyc_status := some .aprobado
      kyc_completo := true
      limite_transferencia := some 50000 }
  | .rechazado => { acct with kyc_status := some .rechazado, kyc_completo := false }
  | s => { acct with kyc_status := some s }

/-- UserAccountsRepository.updateTransferLimit. -/
def updateTransferLimit (acct : UserAccount) (limite : ℚ) :
    Except AppErr UserAccount :=
  if limite ≤ 0 then .error (.validationErr "Transfer limit must be greater than 0")
  else .ok { acct with limite_transferencia := some limite }

/-- UserAccountsService.approveKYC: requires at least one DNI document
and at least one selfie document on file (their validation state is not
consulted), then updates the KYC status (which already sets the limit)
and sets the transfer limit to 50000 again. -/
def approveKYC (docs : List KYCDocument) (acct : UserAccount) :
    Except AppErr UserAccount :=
  let hasDNI := docs.any fun d => d.tipo_documento == DocKind.dni
  let hasSelfie := docs.any fun d => d.tipo_documento == DocKind.selfie
  if !hasDNI || !hasSelfie then
    .error (.validationErr "User must upload DNI and selfie photos for KYC approval")
  else
    let acct1 := updateKYCStatus acct .aprobado
    updateTransferLimit acct1 50000

/-! Transfer handler endpoints (handlers/TransferHandler.ts).  The
handler state carries the origin account, the destination account and
the origin's transfers of the current day. -/

/-- State visible to the transfer endpoints. -/
structure HState where
  origin : UserAccount
  dest : UserAccount
  todays : List Transfer
deriving Repr, DecidableEq

/-- Response of TransferHandler.handleTransfer. -/
inductive TransferHandlerResult where
  | err (e : AppErr)
  | direct (monto saldo_resultante : ℚ)
  | creditOffer (saldo_actual monto_faltante : ℚ) (oferta : CreditSimulation)
deriving Repr, DecidableEq

/-- TransferHandler.handleTransfer: validates the amount, transfers
directly when the balance covers it, and otherwise responds with
tipo_resultado saldo_insuficiente_oferta_credito carrying a 30-day quick
credit simulation of the shortfall.  No limit or fraud stage appears in
this endpoint. -/
def handleTransfer (st : HState) (monto : ℚ) : TransferHandlerResult × HState :=
  if monto ≤ 0 then
    (.err (.validationErr "Transfer amount must be greater than 0"), st)
  else
    let currentBalance := st.origin.saldo_disponible
    if monto ≤ currentBalance then
      let moved := transferFunds st.origin st.dest monto
      let st' := { st with origin := moved.2.1, dest := moved.2.2 }
      match moved.1 with
      | .ok saldo => (.direct monto saldo, st')
      | .failed reason => (.err (.validationErr reason), st')
    else
      let faltante := monto - currentBalance
      match simulateQuickCredit faltante 30 with
      | .error e => (.err e, st)
      | .ok offer => (.creditOffer currentBalance faltante offer, st)

/-- Response of TransferHandler.checkLimitsPreview. -/
inductive LimitCheckResult where
  | err (e : AppErr)
  | limitExceeded (limite_actual usado_hoy disponible monto_solicitado exceso : ℚ)
  | allowed (limite_actual usado_hoy disponible monto_solicitado : ℚ)
deriving Repr, DecidableEq

/-- TransferHandler.checkLimitsPreview: tier limit 50000 when KYC is
complete and 10000 otherwise, minus today's settled total, clamped at 0;
a request above the remaining allowance answers LIMITE_EXCEDIDO with the
limit, today's usage and the excess.  The endpoint only reads, so the
state comes back untouched. -/
def checkLimitsPreview (st : HState) (monto : ℚ) : LimitCheckResult × HState :=
  if monto ≤ 0 then
    (.err (.validationErr "Transfer amount must be greater than 0"), st)
  else
    let limite : ℚ := if st.origin.kyc_completo then 50000 else 10000
    let usado := getDailyTransferTotal st.todays
    let disponible := max 0 (limite - usado)
    if disponible < monto then
      (.limitExceeded limite usado disponible monto (monto - disponible), st)
    else
      (.allowed limite usado disponible monto, st)

/-- One fraud factor (the tagged entries pushed into `fraudRisks`). -/
structure FraudFactor where
  tipo : String
  severidad : String
  descripcion : String
deriving Repr, DecidableEq

/-- Response body of TransferHandler.performFraudCheck. -/
structure FraudCheckResult where
  riesgo_fraude : String
  requiere_verificacion_adicional : Bool
  factores_riesgo : List FraudFactor
deriving Repr, DecidableEq

/-- Account age in whole days as TransferHandler computes it:
`Math.floor((now - fecha_registro) / 86400000)` (integer euclidean
division by the positive constant 86400000 is exactly that floor). -/
def jsAccountAgeDays (now fechaRegistro : ℤ) : ℤ :=
  (now - fechaRegistro) / 86400000

/-- The `fraudRisks` list built by TransferHandler.performFraudCheck:
three independent signals — new account with a high amount (media), more
than 10 settled transfers today (alta), default history (alta). -/
def fraudRisks (now : ℤ) (st : HState) (monto : ℚ) : List FraudFactor :=
  (if jsAccountAgeDays now st.origin.fecha_registro < 30 ∧ 5000 < monto then
    [{ tipo := "cuenta_nueva_monto_alto", severidad := "media",
       descripcion := "Cuenta nueva con transferencia de monto alto" }]
  else []) ++
  (if 10 < getDailyTransferCount st.todays then
    [{ tipo := "transferencias_frecuentes", severidad := "alta",
       descripcion := "Multiples transferencias en poco tiempo" }]
  else []) ++
  (if st.origin.historial_mora then
    [{ tipo := "historial_mora", severidad := "alta",
       descripcion := "Cuenta con historial de mora" }]
  else [])

/-- TransferHandler.performFraudCheck: validates the amount and reports
the fired signals; verification is required exactly when some pushed
factor has severity alta.  The endpoint only reads state. -/
def performFraudCheck (now : ℤ) (st : HState) (monto : ℚ) :
    Except AppErr FraudCheckResult :=
  if monto ≤ 0 then
    .error (.validationErr "Transfer amount must be greater than 0")
  else
    .ok
      { riesgo_fraude := if 0 < (fraudRisks now st monto).length then "alto" else "bajo"
        requiere_verificacion_adicional :=
          (fraudRisks now st monto).any fun r => r.severidad == "alta"
        factores_riesgo := fraudRisks now st monto }

/-! Credit creation (CreditsService.createNormalCredit), with the
repository's credit and installment tables as explicit state.  The
generated id is passed in. -/

/-- The credits store the creation path writes to. -/
structure CreditsState where
  credits : List Credit
  installments : List InstallmentPlan
deriving Repr, DecidableEq

/-- Request body for credit creation (types/index.ts `CreditRequest`). -/
structure CreditRequest where
  usuario_id : String
  tipo_credito : CreditType
  monto_solicitado : ℚ
  plazo_dias : ℕ
deriving Repr, DecidableEq

/-- CreditsService.createNormalCredit: rejects a wrong credit type, then
rejects a term (plazo_dias / 30, floored) outside 3, 6, 9 or 12 months,
then simulates — which itself throws for 9 months because the rate
table lacks that entry — and only then persists the credit row and its
installment plan. -/
def createNormalCredit (newId : String) (request : CreditRequest)
    (st : CreditsState) : Except AppErr (Credit × CreditsState) :=
  if request.tipo_credito ≠ CreditType.normal then
    .error (.validationErr "Invalid credit type for normal credit creation")
  else
    let termMonths := request.plazo_dias / 30
    if ¬(termMonths = 3 ∨ termMonths = 6 ∨ termMonths = 9 ∨ termMonths = 12) then
      .error (.validationErr "Invalid term for normal credit. Allowed: 3, 6, 9, 12 months")
    else
      match simulateNormalCredit request.monto_solicitado termMonths with
      | .error e => .error e
      | .ok simulation =>
        let credit : Credit :=
          { id_credito := newId
            usuario_id := request.usuario_id
            tipo_credito := .normal
            monto_solicitado := request.monto_solicitado
            monto_total := simulation.monto_total
            plazo_dias := request.plazo_dias
            tasa_tea := simulation.tasa_tea
            tasa_cft := simulation.tasa_cft
            estado := .preaprobado
            fecha_desembolso := none
            cuotas := simulation.cuotas_totales }
        .ok (credit,
          { credits := st.credits ++ [credit]
            installments := st.installments ++ simulation.plan_cuotas })

/-- CreditsService.createQuickCredit, same shape for the quick product:
wrong type rejected, then the simulation's own term check applies, then
the rows are persisted. -/
def createQuickCredit (newId : String) (request : CreditRequest)
    (st : CreditsState) : Except AppErr (Credit × CreditsState) :=
  if request.tipo_credito ≠ CreditType.quick then
    .error (.validationErr "Invalid credit type for quick credit creation")
  else
    match simulateQuickCredit request.monto_solicitado request.plazo_dias with
    | .error e => .error e
    | .ok simulation =>
      let credit : Credit :=
        { id_credito := newId
          usuario_id := request.usuario_id
          tipo_credito := .quick
          monto_solicitado := request.monto_solicitado
          monto_total := simulation.monto_total
          plazo_dias := request.plazo_dias
          tasa_tea := simulation.tasa_tea
          tasa_cft := simulation.tasa_cft
          estado := .preaprobado
          fecha_desembolso := none
          cuotas := simulation.cuotas_totales }
      .ok (credit,
        { credits := st.credits ++ [credit]
          installments := st.installments ++ simulation.plan_cuotas })

end MiPago


namespace MiPago

/-! Helper lemmas shared by the claim theorems. -/

instance {α β : Type} [DecidableEq α] [DecidableEq β] : DecidableEq (Except α β) := fun a b =>
  match a, b with
  | .ok x, .ok y => decidable_of_iff (x = y) (by simp)
  | .error x, .error y => decidable_of_iff (x = y) (by simp)
  | .ok _, .error _ => isFalse (by simp)
  | .error _, .ok _ => isFalse (by simp)

/-- The integer-division form of `jsRound` is the floor of x + 1/2. -/
theorem jsRound_eq_floor (x : ℚ) : jsRound x = ⌊x + 1 / 2⌋ := by
  have hden : (x.den : ℚ) ≠ 0 := Nat.cast_ne_zero.mpr x.den_nz
  have hnum : (x.num : ℚ) = x * (x.den : ℚ) := (div_eq_iff hden).mp (Rat.num_div_den x)
  have hx : x + 1 / 2 = ((2 * x.num + (x.den : ℤ) : ℤ) : ℚ) / ((2 * x.den : ℕ) : ℚ) := by
    push_cast
    field_simp
    rw [hnum]
    ring
  unfold jsRound
  rw [hx, Rat.floor_intCast_div_natCast]
  norm_cast

/-- JS rounding moves a value by at most one half. -/
theorem abs_sub_jsRound_le (x : ℚ) : |x - (jsRound x : ℚ)| ≤ 1 / 2 := by
  rw [jsRound_eq_floor]
  have h1 : ((⌊x + 1 / 2⌋ : ℤ) : ℚ) ≤ x + 1 / 2 := Int.floor_le _
  have h2 : x + 1 / 2 < (⌊x + 1 / 2⌋ : ℚ) + 1 := Int.lt_floor_add_one _
  rw [abs_le]
  constructor <;> linarith

/-- The amount column of a generated plan: n - 1 copies of the
per-installment amount followed by the remainder-absorbing last one. -/
theorem importes_makePlan (totalAmount installmentAmount : ℚ) (m : ℕ) :
    (makePlan totalAmount installmentAmount (m + 1)).map (fun p => p.importe) =
      List.replicate m installmentAmount ++
        [totalAmount - installmentAmount * (m : ℚ)] := by
  unfold makePlan
  rw [List.range_succ, List.map_append, List.map_append, List.map_map, List.map_map]
  congr 1
  · rw [List.eq_replicate_iff]
    refine ⟨by simp, ?_⟩
    intro b hb
    simp only [List.mem_map, List.mem_range, Function.comp] at hb
    obtain ⟨j, hj, hb⟩ := hb
    have hne : ¬(j + 1 = m + 1) := by omega
    simp [hne] at hb
    exact hb.symm
  · simp only [List.map_cons, List.map_nil, Function.comp]
    have : ((m : ℚ) + 1) - 1 = (m : ℚ) := by ring
    simp [this]

/-- The installment amounts of a generated plan telescope to the exact
(unrounded) total. -/
theorem planSum_makePlan (totalAmount installmentAmount : ℚ) (m : ℕ) :
    planSum (makePlan totalAmount installmentAmount (m + 1)) = totalAmount := by
  rw [planSum, importes_makePlan, List.sum_append, List.sum_replicate,
    List.sum_cons, List.sum_nil, nsmul_eq_mul]
  ring


/-! Concrete fixtures used by the closed (counterexample / failing-input)
theorems. -/

/-- A quick credit of principal 100, freshly created (PreApproved). -/
def cDemo : Credit :=
  { id_credito := "c-1"
    usuario_id := "u-1"
    tipo_credito := .quick
    monto_solicitado := 100
    monto_total := 110
    plazo_dias := 30
    tasa_tea := 110
    tasa_cft := 127
    estado := .preaprobado
    fecha_desembolso := none
    cuotas := 1 }

/-- An account of the same user holding a balance of 300. -/
def aDemo : UserAccount :=
  { usuario_id := "u-1"
    kyc_completo := true
    fecha_registro := 0
    saldo_disponible := 300
    historial_mora := false
    bloqueado := false
    intentos_fallidos := 0
    fecha_proximo_intento := none
    password_hash := none
    kyc_status := some .aprobado
    limite_transferencia := some 50000 }

/-- An empty credits store. -/
def csEmpty : CreditsState := { credits := [], installments := [] }

/-- A normal-credit request over 270 days, i.e. the 9-month term that
createNormalCredit's own guard accepts. -/
def reqNine : CreditRequest :=
  { usuario_id := "u-1"
    tipo_credito := .normal
    monto_solicitado := 1000
    plazo_dias := 270 }

/-- Credit status and resulting balance of a disbursement outcome, none
when it failed. -/
def disburseView (r : Except AppErr (Credit × UserAccount)) :
    Option (CreditStatus × ℚ) :=
  match r with
  | .ok p => some (p.1.estado, p.2.saldo_disponible)
  | .error _ => none

/-- Outcome of disbursing the same credit twice in a row (feeding the
stored credit and account of the first call into the second). -/
def disburseTwice (c : Credit) (a : UserAccount) : Option (CreditStatus × ℚ) :=
  match approveCreditAndDisburse 0 (some c) a with
  | .error _ => none
  | .ok (c1, a1) =>
    match approveCreditAndDisburse 1 (some c1) a1 with
    | .error _ => none
    | .ok (c2, a2) => some (c2.estado, a2.saldo_disponible)

/-- C1 (code bug, failing input): disbursing the demo credit twice from a
balance of 300 succeeds BOTH times — the first call leaves the balance at
200 and the credit InProgress, and the second call, far from failing with
InvalidState, debits the principal again and leaves the balance at 100.
The source has no check of the credit's status before disbursing. -/
theorem approveCreditAndDisburse_second_call_debits_again :
    disburseView (approveCreditAndDisburse 0 (some cDemo) aDemo) =
      some (CreditStatus.en_curso, 200)
    ∧ disburseTwice cDemo aDemo = some (CreditStatus.en_curso, 100) := by
  constructor
  · norm_num [disburseView, approveCreditAndDisburse, cDemo, aDemo]
  · norm_num [disburseTwice, approveCreditAndDisburse, cDemo, aDemo]

/-- C9 (code bug, failing input): the 9-month term, which the spec, the
code's own error message and createNormalCredit's own guard all treat as
allowed, is rejected with the InvalidTerm validation error because the
normal rate table has no entry for 9; the other in-set terms simulate
fine, and the failed creation writes no credit or installment records
(the error is raised before any repository call). -/
theorem normalCredit_nine_month_term_rejected :
    simulateNormalCredit 1000 9 =
      .error (.validationErr "Invalid term for normal credit. Allowed: 3, 6, 9, 12 months")
    ∧ reqNine.plazo_dias / 30 = 9
    ∧ createNormalCredit "c-9" reqNine csEmpty =
      .error (.validationErr "Invalid term for normal credit. Allowed: 3, 6, 9, 12 months")
    ∧ (simulateNormalCredit 1000 3).isOk = true
    ∧ (simulateNormalCredit 1000 6).isOk = true
    ∧ (simulateNormalCredit 1000 12).isOk = true
    ∧ (simulateQuickCredit 1000 30).isOk = true
    ∧ (simulateQuickCredit 1000 45).isOk = false := by
  refine ⟨?_, by norm_num [reqNine], ?_, ?_, ?_, ?_, ?_, ?_⟩ <;>
    simp [simulateNormalCredit, simulateQuickCredit, normalCreditRates, quickCreditRates,
      createNormalCredit, reqNine, csEmpty, Except.isOk, Except.toBool]

/-- Schedule sum and rounded total of a simulation outcome, none when it
failed. -/
def simView (r : Except AppErr CreditSimulation) : Option (ℚ × ℤ) :=
  match r with
  | .ok s => some (planSum s.plan_cuotas, s.monto_total)
  | .error _ => none

/-- C3 (counterexample): for a quick credit of 1000 over 30 days the
schedule holds a single installment of 81060/73 ≈ 1110.41, which is the
exact unrounded total, while monto_total is the rounded 1110 — so the
installment amounts do NOT sum to monto_total. -/
theorem quick_1000_30_schedule_sum_ne_monto_total :
    simView (simulateQuickCredit 1000 30) = some (81060 / 73, 1110)
    ∧ (81060 / 73 : ℚ) ≠ ((1110 : ℤ) : ℚ) := by
  constructor
  · norm_num [simView, simulateQuickCredit, quickCreditRates, calculateCredit,
      numInstallments, makePlan, jsRound, planSum, List.range, List.range.loop]
  · norm_num


/-- C3 (amended): for every priced credit with at least one installment,
the schedule's amounts sum exactly to the UNROUNDED total
principal + interest + admin fee; monto_total is that exact total
rounded to the nearest unit, so the schedule sum differs from
monto_total by at most 1/2; and the installment count is
ceil(termDays/30) for quick and floor(termDays/30) for normal credits. -/
theorem calculateCredit_schedule_sums_to_exact_total
    (principal tea cft : ℚ) (termDays : ℕ) (type : CreditType)
    (h : 1 ≤ numInstallments type termDays) :
    planSum (calculateCredit principal tea cft termDays type).plan_cuotas =
        principal + principal * (tea / 100) * ((termDays : ℚ) / 365) + principal * (2 / 100)
    ∧ |planSum (calculateCredit principal tea cft termDays type).plan_cuotas -
        ((calculateCredit principal tea cft termDays type).monto_total : ℚ)| ≤ 1 / 2
    ∧ (calculateCredit principal tea cft termDays type).plan_cuotas.length =
        numInstallments type termDays := by
  obtain ⟨m, hm⟩ : ∃ m, numInstallments type termDays = m + 1 :=
    ⟨numInstallments type termDays - 1, by omega⟩
  have hplan : (calculateCredit principal tea cft termDays type).plan_cuotas =
      makePlan
        (principal + principal * (tea / 100) * ((termDays : ℚ) / 365) + principal * (2 / 100))
        ((principal + principal * (tea / 100) * ((termDays : ℚ) / 365) + principal * (2 / 100)) /
          (((m + 1 : ℕ) : ℚ)))
        (m + 1) := by
    simp [calculateCredit, hm]
  have htot : (calculateCredit principal tea cft termDays type).monto_total =
      jsRound (principal + principal * (tea / 100) * ((termDays : ℚ) / 365) +
        principal * (2 / 100)) := by
    simp [calculateCredit]
  have h1 : planSum (calculateCredit principal tea cft termDays type).plan_cuotas =
      principal + principal * (tea / 100) * ((termDays : ℚ) / 365) + principal * (2 / 100) := by
    rw [hplan]
    exact planSum_makePlan _ _ m
  refine ⟨h1, ?_, ?_⟩
  · rw [h1, htot]
    exact abs_sub_jsRound_le _
  · rw [hplan, hm]
    simp [makePlan]

/-- Witness for the amended C3 at a quick credit of 1000 over 30 days. -/
theorem calculateCredit_schedule_sums_to_exact_total_witness :
    planSum (calculateCredit 1000 110 127 30 .quick).plan_cuotas =
        1000 + 1000 * (110 / 100) * (((30 : ℕ) : ℚ) / 365) + 1000 * (2 / 100)
    ∧ |planSum (calculateCredit 1000 110 127 30 .quick).plan_cuotas -
        ((calculateCredit 1000 110 127 30 .quick).monto_total : ℚ)| ≤ 1 / 2
    ∧ (calculateCredit 1000 110 127 30 .quick).plan_cuotas.length =
        numInstallments .quick 30 :=
  calculateCredit_schedule_sums_to_exact_total 1000 110 127 30 .quick
    (by norm_num [numInstallments])

/-- Successful addFunds: the amount was positive and the stored balance
is the old one plus the amount. -/
theorem addFunds_ok_iff (acct : UserAccount) (amount : ℚ) (acct2 : UserAccount)
    (h : addFunds acct amount = .ok acct2) :
    0 < amount ∧ acct2 = { acct with saldo_disponible := acct.saldo_disponible + amount } := by
  unfold addFunds at h
  split_ifs at h with hamt
  cases h
  exact ⟨lt_of_not_le hamt, rfl⟩

/-- Successful removeFunds: the amount was positive, covered by the
balance, and the stored balance is the old one minus the amount. -/
theorem removeFunds_ok_iff (acct : UserAccount) (amount : ℚ) (acct2 : UserAccount)
    (h : removeFunds acct amount = .ok acct2) :
    0 < amount ∧ amount ≤ acct.saldo_disponible ∧
      acct2 = { acct with saldo_disponible := acct.saldo_disponible - amount } := by
  unfold removeFunds at h
  split_ifs at h with hamt hbal
  cases h
  exact ⟨lt_of_not_le hamt, le_of_not_lt hbal, rfl⟩

/-- C2: every balance-mutating core operation keeps saldo_disponible at
or above 0 — addFunds, removeFunds, updateAccountBalance, credit
disbursement and transfer execution — and the two operations that would
drive it negative (removeFunds above the balance, disbursement with the
balance below the principal) fail with an error before any write. -/
theorem balance_operations_preserve_nonnegative_balance :
    (∀ acct amount acct2, addFunds acct amount = .ok acct2 →
        0 ≤ acct.saldo_disponible → 0 ≤ acct2.saldo_disponible)
    ∧ (∀ acct amount acct2, removeFunds acct amount = .ok acct2 →
        0 ≤ acct2.saldo_disponible)
    ∧ (∀ acct amount, 0 ≤ acct.saldo_disponible → acct.saldo_disponible < amount →
        removeFunds acct amount = .error (.validationErr "Insufficient balance"))
    ∧ (∀ acct amount acct2, updateAccountBalance acct amount = .ok acct2 →
        0 ≤ acct2.saldo_disponible)
    ∧ (∀ now credit acct c2 acct2,
        approveCreditAndDisburse now (some credit) acct = .ok (c2, acct2) →
        0 ≤ acct2.saldo_disponible)
    ∧ (∀ now credit acct, acct.saldo_disponible < credit.monto_solicitado →
        approveCreditAndDisburse now (some credit) acct =
          .error (.insufficientFundsErr "Insufficient funds to disburse credit"))
    ∧ (∀ sender recipient amount, 0 ≤ sender.saldo_disponible →
        0 ≤ recipient.saldo_disponible →
        0 ≤ (transferFunds sender recipient amount).2.1.saldo_disponible
        ∧ 0 ≤ (transferFunds sender recipient amount).2.2.saldo_disponible) := by
  refine ⟨?_, ?_, ?_, ?_, ?_, ?_, ?_⟩
  · intro acct amount acct2 h h0
    obtain ⟨hpos, rfl⟩ := addFunds_ok_iff acct amount acct2 h
    simpa using by linarith
  · intro acct amount acct2 h
    obtain ⟨hpos, hle, rfl⟩ := removeFunds_ok_iff acct amount acct2 h
    simpa using by linarith
  · intro acct amount h0 hlt
    unfold removeFunds
    rw [if_neg (by linarith), if_pos hlt]
  · intro acct amount acct2 h
    unfold updateAccountBalance at h
    split_ifs at h with hneg
    cases h
    exact le_of_not_lt hneg
  · intro now credit acct c2 acct2 h
    simp only [approveCreditAndDisburse] at h
    split_ifs at h with hbal
    simp only [Except.ok.injEq, Prod.mk.injEq] at h
    obtain ⟨hc, ha⟩ := h
    subst ha
    show (0 : ℚ) ≤ acct.saldo_disponible - credit.monto_solicitado
    linarith [le_of_not_lt hbal]
  · intro now credit acct hbal
    simp only [approveCreditAndDisburse]
    rw [if_pos hbal]
  · intro sender recipient amount h0s h0r
    unfold transferFunds
    split_ifs with hbal
    · exact ⟨h0s, h0r⟩
    · rcases hrm : removeFunds sender amount with e | sender2
      · exact ⟨h0s, h0r⟩
      · obtain ⟨hpos, hle, rfl⟩ := removeFunds_ok_iff sender amount sender2 hrm
        rcases had : addFunds recipient amount with e | recipient2
        · constructor
          · simpa using by linarith
          · exact h0r
        · obtain ⟨hpos2, rfl⟩ := addFunds_ok_iff recipient amount recipient2 had
          constructor
          · simpa using by linarith
          · simpa using by linarith

/-- Witness for C2: each conjunct exercised on a concrete account. -/
theorem balance_operations_preserve_nonnegative_balance_witness :
    (0 : ℚ) ≤ ((transferFunds aDemo aDemo 50).2.1.saldo_disponible) ∧
    removeFunds aDemo 400 = .error (.validationErr "Insufficient balance") ∧
    approveCreditAndDisburse 0
        (some { cDemo with monto_solicitado := 500 }) aDemo =
      .error (.insufficientFundsErr "Insufficient funds to disburse credit") := by
  refine ⟨(balance_operations_preserve_nonnegative_balance.2.2.2.2.2.2 aDemo aDemo 50
      (by norm_num [aDemo]) (by norm_num [aDemo])).1,
    balance_operations_preserve_nonnegative_balance.2.2.1 aDemo 400
      (by norm_num [aDemo]) (by norm_num [aDemo]),
    balance_operations_preserve_nonnegative_balance.2.2.2.2.2.1 0
      { cDemo with monto_solicitado := 500 } aDemo (by norm_num [aDemo, cDemo])⟩

/-- Handler state for the over-limit settlement counterexample: an
un-KYCed origin account (tier limit 10000) holding 30000, no transfers
settled today. -/
def hsLimit : HState :=
  { origin :=
      { aDemo with
        kyc_completo := false
        saldo_disponible := 30000
        kyc_status := some .pendiente
        limite_transferencia := some 10000 }
    dest := { aDemo with usuario_id := "u-2", saldo_disponible := 0 }
    todays := [] }

/-- C4 (counterexample): a settlement request for 20000 from an un-KYCed
origin (tier limit 10000, nothing used today) is NOT rejected — the
transfer-execution endpoint performs no limit check, executes the
transfer and mutates both balances (origin 30000 -> 10000). -/
theorem handleTransfer_executes_above_tier_limit :
    hsLimit.origin.kyc_completo = false
    ∧ getDailyTransferTotal hsLimit.todays = 0
    ∧ (10000 : ℚ) - getDailyTransferTotal hsLimit.todays < 20000
    ∧ handleTransfer hsLimit 20000 =
        (.direct 20000 10000,
          { hsLimit with
              origin := { hsLimit.origin with saldo_disponible := 10000 }
              dest := { hsLimit.dest with saldo_disponible := 20000 } }) := by
  refine ⟨rfl, rfl, by norm_num [getDailyTransferTotal, hsLimit], ?_⟩
  norm_num [handleTransfer, transferFunds, removeFunds, addFunds, hsLimit, aDemo]

/-- C4 (amended): the tier-limit rule is enforced by the check-limits
preview endpoint: with the limit 50000 for a KYC-complete origin and
10000 otherwise, any positive request above limit minus today's settled
total answers LIMITE_EXCEDIDO carrying the limit, today's usage, the
remaining allowance and the excess over it, and leaves the state
untouched.  (The execution endpoint itself, as the counterexample shows,
performs no limit check.) -/
theorem checkLimitsPreview_rejects_over_remaining
    (st : HState) (monto : ℚ) (hm : 0 < monto)
    (hover : (if st.origin.kyc_completo then (50000 : ℚ) else 10000) -
        getDailyTransferTotal st.todays < monto) :
    checkLimitsPreview st monto =
      (.limitExceeded
        (if st.origin.kyc_completo then (50000 : ℚ) else 10000)
        (getDailyTransferTotal st.todays)
        (max 0 ((if st.origin.kyc_completo then (50000 : ℚ) else 10000) -
          getDailyTransferTotal st.todays))
        monto
        (monto - max 0 ((if st.origin.kyc_completo then (50000 : ℚ) else 10000) -
          getDailyTransferTotal st.todays)), st) := by
  simp only [checkLimitsPreview]
  rw [if_neg (not_le.mpr hm), if_pos (max_lt hm hover)]

/-- Handler state exercising the limit rejection: un-KYCed origin with
8000 already settled today. -/
def hsPrev : HState :=
  { origin :=
      { aDemo with
        kyc_completo := false
        kyc_status := some .pendiente
        limite_transferencia := some 10000 }
    dest := { aDemo with usuario_id := "u-2", saldo_disponible := 0 }
    todays := [{ monto := 8000, estado := .acreditada }] }

/-- Witness for the amended C4: limit 10000, 8000 used today, a request
for 3000 is rejected with remaining 2000 and excess 1000. -/
theorem checkLimitsPreview_rejects_over_remaining_witness :
    checkLimitsPreview hsPrev 3000 =
      (.limitExceeded 10000 8000 2000 3000 1000, hsPrev) := by
  have h := checkLimitsPreview_rejects_over_remaining hsPrev 3000 (by norm_num)
    (by norm_num [hsPrev, aDemo, getDailyTransferTotal])
  rw [h]
  norm_num [hsPrev, aDemo, getDailyTransferTotal, max_def]

/-- C10: a transfer-execution request whose amount exceeds the origin
balance moves no funds and creates no transfer: the handler answers the
non-success saldo_insuficiente_oferta_credito result carrying the
current balance, the shortfall amount − balance, and a 30-day quick
credit simulation priced on exactly that shortfall, with the state
unchanged. -/
theorem handleTransfer_shortfall_offers_quick_credit
    (st : HState) (monto : ℚ) (hm : 0 < monto)
    (hshort : st.origin.saldo_disponible < monto) (offer : CreditSimulation)
    (hoffer : simulateQuickCredit (monto - st.origin.saldo_disponible) 30 = .ok offer) :
    handleTransfer st monto =
      (.creditOffer st.origin.saldo_disponible (monto - st.origin.saldo_disponible) offer,
        st) := by
  simp only [handleTransfer]
  rw [if_neg (not_le.mpr hm), if_neg (not_le.mpr hshort), hoffer]

/-- Handler state for the shortfall path: origin balance 100. -/
def hsShort : HState :=
  { origin := { aDemo with saldo_disponible := 100 }
    dest := { aDemo with usuario_id := "u-2", saldo_disponible := 0 }
    todays := [] }

/-- Witness for C10: transferring 600 from a balance of 100 yields the
credit offer over the 500 shortfall (single installment of 40530/73,
rounded total 555). -/
theorem handleTransfer_shortfall_offers_quick_credit_witness :
    handleTransfer hsShort 600 =
      (.creditOffer 100 500
        { tipo_credito := .quick
          monto_solicitado := 500
          plazo_dias := 30
          cuotas_totales := 1
          tasa_tea := 110
          tasa_cft := 127
          monto_total := 555
          costo_financiero := 55
          plan_cuotas := [{ nro_cuota := 1, importe := 40530 / 73, fecha_vencimiento_dias := 30 }] }, hsShort) := by
  have hof : simulateQuickCredit (600 - hsShort.origin.saldo_disponible) 30 =
      .ok
        { tipo_credito := .quick
          monto_solicitado := 500
          plazo_dias := 30
          cuotas_totales := 1
          tasa_tea := 110
          tasa_cft := 127
          monto_total := 555
          costo_financiero := 55
          plan_cuotas := [{ nro_cuota := 1, importe := 40530 / 73, fecha_vencimiento_dias := 30 }] } := by
    norm_num [hsShort, aDemo, simulateQuickCredit, quickCreditRates, calculateCredit,
      numInstallments, makePlan, jsRound, List.range, List.range.loop]
  have h := handleTransfer_shortfall_offers_quick_credit hsShort 600 (by norm_num)
    (by norm_num [hsShort, aDemo]) _ hof
  rw [h]
  norm_num [hsShort, aDemo]


/-- C5: the login / lockout state machine — a failed attempt on an
unlocked account records one more failed attempt; the attempt that
reaches 5 blocks the account until now + 1h; an attempt (the 6th) while
the lock is active is rejected with the account entirely unchanged, so
the lock is not extended and the counter not incremented; a successful
login on an unlocked account resets the counter to 0 and clears the
retry timestamp; and any status check after the lock expiry clears the
lock (and the counter) by itself. -/
theorem login_lockout_state_machine :
    (∀ now acct h, acct.bloqueado = false → acct.password_hash = some h →
        validateCredentials now false acct =
          (.badCredentials, recordFailedLoginAttempt now acct)
        ∧ (recordFailedLoginAttempt now acct).intentos_fallidos =
            acct.intentos_fallidos + 1)
    ∧ (∀ now acct, acct.intentos_fallidos = 4 →
        (recordFailedLoginAttempt now acct).bloqueado = true
        ∧ (recordFailedLoginAttempt now acct).fecha_proximo_intento =
            some (now + oneHourMs))
    ∧ (∀ now pw t acct, acct.bloqueado = true → acct.fecha_proximo_intento = some t →
        now < t → validateCredentials now pw acct = (.locked, acct))
    ∧ (∀ now acct h, acct.bloqueado = false → acct.password_hash = some h →
        validateCredentials now true acct = (.ok, resetFailedLoginAttempts acct)
        ∧ (resetFailedLoginAttempts acct).intentos_fallidos = 0
        ∧ (resetFailedLoginAttempts acct).fecha_proximo_intento = none)
    ∧ (∀ now t acct, acct.bloqueado = true → acct.fecha_proximo_intento = some t →
        t ≤ now →
        isAccountBlocked now acct = (false, unblockAccount acct)
        ∧ (unblockAccount acct).bloqueado = false
        ∧ (unblockAccount acct).intentos_fallidos = 0) := by
  refine ⟨?_, ?_, ?_, ?_, ?_⟩
  · intro now acct h hb hh
    refine ⟨?_, ?_⟩
    · simp [validateCredentials, isAccountBlocked, hb, hh]
    · simp only [recordFailedLoginAttempt]
      split_ifs <;> rfl
  · intro now acct h4
    unfold recordFailedLoginAttempt
    rw [if_pos (by omega)]
    exact ⟨rfl, rfl⟩
  · intro now pw t acct hb hf hlt
    simp [validateCredentials, isAccountBlocked, hb, hf, not_le.mpr hlt]
  · intro now acct h hb hh
    exact ⟨by simp [validateCredentials, isAccountBlocked, hb, hh], rfl, rfl⟩
  · intro now t acct hb hf hle
    exact ⟨by simp [isAccountBlocked, hb, hf, hle], rfl, rfl⟩

/-- An unlocked account with 4 failed attempts and a stored password. -/
def aSec : UserAccount :=
  { aDemo with password_hash := some "salt.hash", intentos_fallidos := 4 }

/-- The same account once locked until t = 1000. -/
def aLocked : UserAccount :=
  { aDemo with
    password_hash := some "salt.hash"
    intentos_fallidos := 5
    bloqueado := true
    fecha_proximo_intento := some 1000 }

/-- Witness for C5: the 5th failure at t=0 locks until 3600000; an
attempt at t=500 on the locked account is rejected unchanged; a status
check at t=2000 auto-unlocks; a success resets the counter. -/
theorem login_lockout_state_machine_witness :
    (recordFailedLoginAttempt 0 aSec).intentos_fallidos = 5
    ∧ (recordFailedLoginAttempt 0 aSec).bloqueado = true
    ∧ (recordFailedLoginAttempt 0 aSec).fecha_proximo_intento = some 3600000
    ∧ validateCredentials 500 true aLocked = (.locked, aLocked)
    ∧ isAccountBlocked 2000 aLocked = (false, unblockAccount aLocked)
    ∧ validateCredentials 0 true aSec = (.ok, resetFailedLoginAttempts aSec) := by
  refine ⟨?_, ?_, ?_, ?_, ?_, ?_⟩
  · have h := (login_lockout_state_machine.1 0 aSec "salt.hash" rfl rfl).2
    simpa [aSec, aDemo] using h
  · exact (login_lockout_state_machine.2.1 0 aSec rfl).1
  · have h := (login_lockout_state_machine.2.1 0 aSec rfl).2
    simpa [oneHourMs] using h
  · exact login_lockout_state_machine.2.2.1 500 true 1000 aLocked rfl rfl (by norm_num)
  · exact (login_lockout_state_machine.2.2.2.2 2000 1000 aLocked rfl rfl (by norm_num)).1
  · exact (login_lockout_state_machine.2.2.2.1 0 aSec "salt.hash" rfl rfl).1

/-- An already-expired, unused reset token (expiry t = 100). -/
def tokExpired : PasswordResetToken :=
  { token := "tok-1", usuario_id := "u-1", fecha_vencimiento := 100, utilizado := false }

/-- C6 (counterexample): at t = 200 the token is expired (validation
returns false), yet confirming with the 3-character password "abc"
answers the password-format error, NOT InvalidToken — the source checks
the new password's length before the token. -/
theorem reset_short_password_checked_before_token :
    validatePasswordResetToken 200 [tokExpired] "tok-1" = false
    ∧ updatePasswordWithResetToken 200 [tokExpired] "tok-1" "abc" =
        (.passwordTooShort, [tokExpired])
    ∧ ResetOutcome.passwordTooShort ≠ ResetOutcome.invalidToken := by
  refine ⟨by decide, by decide, by decide⟩

/-- C6 (amended): the password format (≥ 8 characters) is checked FIRST;
for every new password of valid length, an expired, spent or unknown
token makes the confirmation fail with InvalidToken, and the token store
is left unchanged. -/
theorem reset_invalid_token_fails_with_invalid_token
    (now : ℤ) (tokens : List PasswordResetToken) (t newPassword : String)
    (hlen : 8 ≤ newPassword.length)
    (hbad : ∀ row ∈ tokens, row.token = t → row.utilizado = false →
        row.fecha_vencimiento ≤ now) :
    updatePasswordWithResetToken now tokens t newPassword = (.invalidToken, tokens) := by
  have hval : validatePasswordResetToken now tokens t = false := by
    unfold validatePasswordResetToken
    cases hfind : findUnusedToken tokens t with
    | none => rfl
    | some row =>
      have hmem := List.mem_of_find?_eq_some hfind
      have hpred := List.find?_some hfind
      simp only [Bool.and_eq_true, beq_iff_eq, Bool.not_eq_true'] at hpred
      have hexp := hbad row hmem hpred.1 hpred.2
      simp [not_lt.mpr hexp]
  unfold updatePasswordWithResetToken
  rw [if_neg (not_lt.mpr hlen), hval]
  simp

/-- Witness for the amended C6: the expired token with an 8+ character
password fails with InvalidToken. -/
theorem reset_invalid_token_fails_with_invalid_token_witness :
    updatePasswordWithResetToken 200 [tokExpired] "tok-1" "longenough" =
      (.invalidToken, [tokExpired]) := by
  apply reset_invalid_token_fails_with_invalid_token
  · decide
  · intro row hrow htok hun
    simp only [List.mem_singleton] at hrow
    subst hrow
    decide

/-- C7: KYC approval succeeds exactly when at least one DNI document and
at least one selfie document are on file — their individual validation
states play no role — and on success it stores kyc_status = aprobado,
kyc_completo and the 50000 transfer limit in one update; with either
document missing it fails with a validation error and, the check coming
before any write, changes neither field. -/
theorem approveKYC_requires_dni_selfie_and_sets_tier
    (docs : List KYCDocument) (acct : UserAccount) :
    ((docs.any fun d => d.tipo_documento == DocKind.dni) = true →
      (docs.any fun d => d.tipo_documento == DocKind.selfie) = true →
      approveKYC docs acct =
        .ok { acct with
          kyc_status := some .aprobado
          kyc_completo := true
          limite_transferencia := some 50000 })
    ∧ (((docs.any fun d => d.tipo_documento == DocKind.dni) = false ∨
        (docs.any fun d => d.tipo_documento == DocKind.selfie) = false) →
      approveKYC docs acct =
        .error (.validationErr "User must upload DNI and selfie photos for KYC approval")) := by
  constructor
  · intro h1 h2
    simp only [approveKYC, h1, h2]
    norm_num [updateKYCStatus, updateTransferLimit]
  · intro h
    rcases h with h | h <;> simp [approveKYC, h]

/-- Two documents, dni and selfie, neither individually approved. -/
def docsW : List KYCDocument :=
  [{ tipo_documento := .dni, estado_validacion := .pendiente },
   { tipo_documento := .selfie, estado_validacion := .rechazado }]

/-- Witness for C7: approval goes through on mere presence of the two
documents (one pending, one rejected), and fails on an empty file. -/
theorem approveKYC_requires_dni_selfie_and_sets_tier_witness :
    approveKYC docsW aDemo =
      .ok { aDemo with kyc_status := some .aprobado, kyc_completo := true, limite_transferencia := some 50000 }
    ∧ approveKYC [] aDemo =
      .error (.validationErr "User must upload DNI and selfie photos for KYC approval") :=
  ⟨(approveKYC_requires_dni_selfie_and_sets_tier docsW aDemo).1 (by decide) (by decide),
    (approveKYC_requires_dni_selfie_and_sets_tier [] aDemo).2 (Or.inl (by decide))⟩

/-- C8: for every positive amount the fraud check reports the fired
signals with their severities — the new-account/high-amount signal is
media, the frequency and default-history signals are alta — and
requiresVerification holds exactly when a high-severity signal fired
(that is, exactly when settled-transfers-today > 10 or the account has
default history; the media signal alone never sets it).  The check
returns a report only and touches no account or transfer state. -/
theorem performFraudCheck_high_signals_drive_verification
    (now : ℤ) (st : HState) (monto : ℚ) (hm : 0 < monto) :
    performFraudCheck now st monto = .ok
      { riesgo_fraude := if 0 < (fraudRisks now st monto).length then "alto" else "bajo"
        requiere_verificacion_adicional :=
          decide (10 < getDailyTransferCount st.todays) || st.origin.historial_mora
        factores_riesgo := fraudRisks now st monto }
    ∧ (({ tipo := "cuenta_nueva_monto_alto", severidad := "media",
          descripcion := "Cuenta nueva con transferencia de monto alto" } : FraudFactor) ∈
        fraudRisks now st monto ↔
        (jsAccountAgeDays now st.origin.fecha_registro < 30 ∧ 5000 < monto))
    ∧ (({ tipo := "transferencias_frecuentes", severidad := "alta",
          descripcion := "Multiples transferencias en poco tiempo" } : FraudFactor) ∈
        fraudRisks now st monto ↔ 10 < getDailyTransferCount st.todays)
    ∧ (({ tipo := "historial_mora", severidad := "alta",
          descripcion := "Cuenta con historial de mora" } : FraudFactor) ∈
        fraudRisks now st monto ↔ st.origin.historial_mora = true)
    ∧ (((fraudRisks now st monto).any fun r => r.severidad == "alta") =
        (decide (10 < getDailyTransferCount st.todays) || st.origin.historial_mora)) := by
  have hany : ((fraudRisks now st monto).any fun r => r.severidad == "alta") =
      (decide (10 < getDailyTransferCount st.todays) || st.origin.historial_mora) := by
    unfold fraudRisks
    split_ifs <;> simp_all
  refine ⟨?_, ?_, ?_, ?_, hany⟩
  · simp only [performFraudCheck, if_neg (not_le.mpr hm), hany]
  · unfold fraudRisks
    split_ifs <;> simp_all
  · unfold fraudRisks
    split_ifs <;> simp_all
  · unfold fraudRisks
    split_ifs <;> simp_all

/-- The §8 scenario state: account registered at t = 0, no default
history, nothing settled today. -/
def hsFraud : HState :=
  { origin := { aDemo with fecha_registro := 0, saldo_disponible := 1000 }
    dest := { aDemo with usuario_id := "u-2", saldo_disponible := 0 }
    todays := [] }

/-- Witness for C8, the spec's own scenario: account age 10 days,
transfer of 6000 — the media signal fires alone, riesgo alto, but
requiresVerification stays false. -/
theorem performFraudCheck_high_signals_drive_verification_witness :
    performFraudCheck 864000000 hsFraud 6000 = .ok
      { riesgo_fraude := "alto"
        requiere_verificacion_adicional := false
        factores_riesgo := [{ tipo := "cuenta_nueva_monto_alto", severidad := "media", descripcion := "Cuenta nueva con transferencia de monto alto" }] } := by
  have h := (performFraudCheck_high_signals_drive_verification 864000000 hsFraud 6000
    (by norm_num)).1
  rw [h]
  norm_num [fraudRisks, hsFraud, aDemo, getDailyTransferCount, jsAccountAgeDays]

end MiPago
